import Mathlib

/-!
Verification of the geospatial scoring and statistical-cube resolution engine
of the daft-scraper-api repository (main.go and crime_stats.go).

The Go code is shallowly embedded: strings are Lean `String`s, the relevant
pieces of the Go `strings` package are re-implemented structurally over
`List Char` so that everything evaluates inside the kernel, float64 values
that only ever feed comparisons and exact arithmetic are modelled as `ℚ`,
Go `int` is `Int`, and fallible paths return `Except`.
-/

set_option maxHeartbeats 1600000

namespace DaftScraper

/-! ## Go `strings` package subset, over `List Char`

Structural re-implementations of the handful of Go standard-library string
operations the scraper uses: HasPrefix, Contains, TrimPrefix, TrimSpace,
ToLower/ToUpper, ReplaceAll, Split(",", …), Fields.  Go operates on
unicode runes; the repository only ever feeds ASCII pattern strings, and
`Char.toLower`/`Char.isAlpha` agree with Go on that fragment. -/

/-- Go strings.HasPrefix on character lists. -/
def charsStartsWith : List Char → List Char → Bool
  | _, [] => true
  | [], _ :: _ => false
  | c :: s, p :: ps => c == p && charsStartsWith s ps

/-- Go strings.Contains on character lists: some suffix starts with `sub`. -/
def charsContains : List Char → List Char → Bool
  | [], sub => sub.isEmpty
  | c :: s, sub => charsStartsWith (c :: s) sub || charsContains s sub

/-- Go strings.TrimPrefix on character lists. -/
def trimPre (s pre : List Char) : List Char :=
  if charsStartsWith s pre then s.drop pre.length else s

/-- Go strings.TrimSpace on character lists. -/
def trimChars (s : List Char) : List Char :=
  ((s.dropWhile Char.isWhitespace).reverse.dropWhile Char.isWhitespace).reverse

/-- Go strings.ToLower on character lists (ASCII fragment). -/
def toLowerChars (s : List Char) : List Char :=
  s.map Char.toLower

/-- Go strings.ToUpper on character lists (ASCII fragment). -/
def toUpperChars (s : List Char) : List Char :=
  s.map Char.toUpper

/-- Fuel-driven core of `replaceAll`: scan left to right, replacing each
non-overlapping occurrence of `old`.  The fuel (the string length at the
start) keeps the recursion structural; each step consumes at least one
character, so the fuel never runs out. -/
def replaceAllAux (old new : List Char) : Nat → List Char → List Char
  | 0, s => s
  | fuel + 1, s =>
    match s with
    | [] => []
    | c :: cs =>
      if charsStartsWith (c :: cs) old then
        new ++ replaceAllAux old new fuel ((c :: cs).drop old.length)
      else
        c :: replaceAllAux old new fuel cs

/-- Go strings.ReplaceAll on character lists.  The repository never calls it
with an empty pattern, so that case just returns the string. -/
def replaceAll (s old new : List Char) : List Char :=
  if old.isEmpty then s else replaceAllAux old new s.length s

/-- Go strings.Split with a one-character separator (the source only splits
on `","`). -/
def splitChars (sep : Char) : List Char → List (List Char)
  | [] => [[]]
  | c :: cs =>
    let rest := splitChars sep cs
    if c == sep then [] :: rest
    else
      match rest with
      | [] => [[c]]
      | r :: rs => (c :: r) :: rs

/-- Accumulator core of Go strings.Fields. -/
def fieldsAux : List Char → List Char → List (List Char)
  | acc, [] => if acc.isEmpty then [] else [acc.reverse]
  | acc, c :: cs =>
    if c.isWhitespace then
      if acc.isEmpty then fieldsAux [] cs
      else acc.reverse :: fieldsAux [] cs
    else
      fieldsAux (c :: acc) cs

/-- Go strings.Fields: split around runs of whitespace, dropping empties. -/
def fieldsChars (s : List Char) : List (List Char) :=
  fieldsAux [] s

/-- Numeric value of an ASCII digit character. -/
def digitVal (c : Char) : Nat :=
  c.toNat - '0'.toNat

/-- Decimal value of a digit run, as strconv.ParseFloat reads the integer
part of its input. -/
def natOfDigits (l : List Char) : Nat :=
  l.foldl (fun acc c => acc * 10 + digitVal c) 0

/-! ## Data model (main.go) -/

/-- POI of main.go: a nearby place with its distance in km and walking
minutes.  Only name, type, distance and duration exist in the source. -/
structure POI where
  name : String
  ptype : String
  distance : ℚ
  duration : Int
  deriving DecidableEq

/-- SimilarProperty of main.go. -/
structure SimilarProperty where
  address : String
  price : ℚ
  url : String
  deriving DecidableEq

/-! ## POIScorer (main.go: findPublicTransport, calculateWalkScore) -/

/-- Transport-score computation at the end of `findPublicTransport`
(main.go): base 5; if any station was collected, the *first* station of the
list (insertion order, not distance order) adds 3 when nearer than 0.5 km,
else 2 when nearer than 1.0 km; two or more stations add 2 more.  The source
applies no clamp. -/
def transportScore (publicTransport : List POI) : Int :=
  let score : Int := 5
  match publicTransport with
  | [] => score
  | nearestStation :: _ =>
    let score :=
      if nearestStation.distance < 1/2 then score + 3
      else if nearestStation.distance < 1 then score + 2
      else score
    if publicTransport.length > 1 then score + 2 else score

/-- calculateWalkScore (main.go): base 50, plus `min(count*5, 25)` for
amenities within 1 km and again for entertainment within 1 km, plus a
transport bonus (+10 when the transport score is ≥ 7, else +5 when ≥ 5),
clamped to [0, 100] by `min(max(score, 0), 100)`. -/
def calculateWalkScore (amenities entertainment : List POI) (tScore : Int) : Int :=
  let score : Int := 50
  let amenitiesNearby : Int := ((amenities.filter (fun a => a.distance < 1)).length : Int)
  let entertainmentNearby : Int := ((entertainment.filter (fun e => e.distance < 1)).length : Int)
  let score := score + min (amenitiesNearby * 5) 25
  let score := score + min (entertainmentNearby * 5) 25
  let score := if tScore ≥ 7 then score + 10 else if tScore ≥ 5 then score + 5 else score
  min (max score 0) 100

/-! ## PriceAnalyzer (main.go: extractPriceValue, calculatePriceRating) -/

/-- Cleaning phase of extractPriceValue (main.go): TrimSpace, then remove
every "€", ",", and " ". -/
def cleanPrice (price : String) : List Char :=
  replaceAll (replaceAll (replaceAll (trimChars price.toList)
    "€".toList "".toList) ",".toList "".toList) " ".toList "".toList

/-- extractPriceValue (main.go): clean the text, match the leading
`[0-9]+(\.[0-9]+)?` run, and parse it; 0 when nothing matches.  ParseFloat
is modelled exactly over ℚ (the repository's prices are small integers, far
from any float64 rounding). -/
def extractPriceValue (price : String) : ℚ :=
  let cleaned := cleanPrice price
  let intDigits := cleaned.takeWhile Char.isDigit
  if intDigits.isEmpty then 0
  else
    match cleaned.drop intDigits.length with
    | '.' :: rest =>
      let fracDigits := rest.takeWhile Char.isDigit
      if fracDigits.isEmpty then (natOfDigits intDigits : ℚ)
      else (natOfDigits intDigits : ℚ) + (natOfDigits fracDigits : ℚ) / (10 : ℚ) ^ fracDigits.length
    | _ => (natOfDigits intDigits : ℚ)

/-- Band mapping inside calculatePriceRating (main.go): the switch over
`priceDiff` with 5-point-wide bands. -/
def ratingOfDiff (priceDiff : ℚ) : Int :=
  if priceDiff ≥ 20 then 10
  else if priceDiff ≥ 15 then 9
  else if priceDiff ≥ 10 then 8
  else if priceDiff ≥ 5 then 7
  else if priceDiff ≥ 0 then 6
  else if priceDiff ≥ -5 then 5
  else if priceDiff ≥ -10 then 4
  else if priceDiff ≥ -15 then 3
  else if priceDiff ≥ -20 then 2
  else 1

/-- calculatePriceRating (main.go) as a function of the area average price
and the current price: when the average is 0 the source returns early and
the rating field keeps its zero value; otherwise the percentage the current
price sits below the average is banded by `ratingOfDiff`. -/
def calculatePriceRating (avgPrice currentPrice : ℚ) : Int :=
  if avgPrice = 0 then 0
  else ratingOfDiff ((avgPrice - currentPrice) / avgPrice * 100)

/-! ## AddressSlugger (main.go: slugify, extractLocationFromAddress) -/

/-- slugify (main.go): replace spaces with hyphens, trim, lowercase, and
keep only letters, digits and hyphens. -/
def slugifyChars (s : List Char) : List Char :=
  (toLowerChars (trimChars (replaceAll s " ".toList "-".toList))).filter
    (fun c => c.isAlpha || c.isDigit || c == '-')

/-- extractLocationFromAddress (main.go): split the address on commas, trim
and lowercase each part, drop empties; the second-to-last part is the
suburb, the last the county; strip a leading "co." then "county" from the
county; when the county still holds a digit, keep only its first
whitespace-delimited word; return `slugify(suburb) ++ "-" ++
slugify(county)`. -/
def extractLocationFromAddress (addr : String) : String :=
  let parts := (splitChars ',' addr.toList).map (fun p => toLowerChars (trimChars p))
  let filtered := parts.filter (fun p => !p.isEmpty)
  if filtered.isEmpty then ""
  else
    let suburb := if 2 ≤ filtered.length then filtered.getD (filtered.length - 2) [] else []
    let county := filtered.getD (filtered.length - 1) []
    let county := trimChars (trimPre (trimPre county "co.".toList) "county".toList)
    let county := if county.any Char.isDigit then (fieldsChars county).getD 0 [] else county
    String.mk (slugifyChars suburb ++ '-' :: slugifyChars county)

/-! ## Similar-listing filter (main.go: findSimilarProperties) -/

/-- One raw listing as the search-result page hands it to the collector:
address text, price text and the ad's URL path. -/
structure RawListing where
  address : String
  priceText : String
  url : String
  deriving DecidableEq

/-- Per-listing step of findSimilarProperties (main.go): skip the entry when
the URL is missing, when the address is missing, or when the parsed price is
0; otherwise keep it with the site prepended to the URL path.  (The source
binds the parsed price to a local once; it is pure, so it is inlined
here.) -/
def listingToSimilar (r : RawListing) : Option SimilarProperty :=
  if r.url = "" then none
  else if r.address = "" then none
  else if extractPriceValue r.priceText = 0 then none
  else some ⟨r.address, extractPriceValue r.priceText, "https://www.daft.ie" ++ r.url⟩

/-- findSimilarProperties (main.go), collection phase: the raw results are
scanned in page order, kept entries appended in that order, and the list is
cut to the first 5 when more were kept. -/
def findSimilarProperties (raws : List RawListing) : List SimilarProperty :=
  if 5 < (raws.filterMap listingToSimilar).length then (raws.filterMap listingToSimilar).take 5
  else raws.filterMap listingToSimilar

/-! ## SafetyScoreComposer (main.go: calculateSafetyScore) -/

/-- Inputs read by calculateSafetyScore (main.go): the nearby Garda
stations' distances in the order the place search returned them, the
street-lighting rating, and the crime per-capita rate. -/
structure SafetyInput where
  gardaiDistances : List ℚ
  lightingRating : Int
  crimePerCapita : ℚ

/-- Safety-factor list built by calculateSafetyScore (main.go): one entry
when at least one Garda station was found (the source interpolates the
first station's distance into the text; only the entry count feeds the
score), one more when the lighting rating is at least 7. -/
def safetyFactorsOf (inp : SafetyInput) : List String :=
  let fs : List String := []
  let fs := if 0 < inp.gardaiDistances.length then fs ++ ["Garda station within km"] else fs
  if 7 ≤ inp.lightingRating then fs ++ ["Well-lit streets"] else fs

/-- Risk-factor list of calculateSafetyScore (main.go): one entry when the
per-capita crime rate exceeds 0.02. -/
def riskFactorsOf (inp : SafetyInput) : List String :=
  if 2/100 < inp.crimePerCapita then ["Above average crime rate"] else []

/-- calculateSafetyScore (main.go): 70, plus 5 per safety factor, minus 10
per risk factor, plus twice the lighting rating, clamped into [1, 100]. -/
def calculateSafetyScore (inp : SafetyInput) : Int :=
  let score : Int := 70
  let score := score + ((safetyFactorsOf inp).length : Int) * 5
  let score := score - ((riskFactorsOf inp).length : Int) * 10
  let score := score + inp.lightingRating * 2
  if score < 1 then 1 else if 100 < score then 100 else score

/-! ## CrimeStatsResolver (crime_stats.go)

The embedding starts where `fetchStats` has decoded the PxStat body:
everything before that point is the HTTP fetch and JSON decode of the
external collaborator.  The Go map of dimensions is modelled as an
association list whose order stands for the map's enumeration order (the
heuristics below iterate it exactly as the source ranges over the map). -/

/-- normalize (crime_stats.go): lowercase, delete ".", ",", "-", the en and
em dash, parentheses and the word "division", collapse double spaces once,
then trim. -/
def normalizeChars (s : List Char) : List Char :=
  trimChars (replaceAll (replaceAll (replaceAll (replaceAll (replaceAll (replaceAll
    (replaceAll (replaceAll (replaceAll (toLowerChars s)
    ".".toList "".toList) ",".toList "".toList) "-".toList "".toList)
    "–".toList "".toList) "—".toList "".toList) "(".toList "".toList)
    ")".toList "".toList) "division".toList "".toList) "  ".toList " ".toList)

/-- CrimeTypeData (crime_stats.go). -/
structure CrimeTypeData where
  ctype : String
  count : Int
  deriving DecidableEq

/-- CrimeStats (crime_stats.go).  PerCapita is a float64 ratio of exact
integers, modelled exactly in ℚ. -/
structure CrimeStats where
  total : Int
  perCapita : ℚ
  breakdown : List CrimeTypeData
  deriving DecidableEq

/-- Category block of one PxStat dimension: the ordered code index and the
code-to-label map (an association list in the model). -/
structure Category where
  index : List String
  label : List (String × String)
  deriving DecidableEq

/-- One PxStat dimension: its descriptive label and its category block. -/
structure Dimension where
  label : String
  category : Category
  deriving DecidableEq

/-- The decoded PxStat dataset of crime_stats.go: the keyed dimensions and
the flat value vector. -/
structure PxDataset where
  dimension : List (String × Dimension)
  value : List ℚ
  deriving DecidableEq

/-- pop (crime_stats.go): approximate population per division, six named
entries, 100000 for any other name. -/
def pop (div : String) : Int :=
  if div = "D.M.R. Northern Division" then 180000
  else if div = "D.M.R. North Central Division" then 300000
  else if div = "D.M.R. Southern Division" then 200000
  else if div = "D.M.R. South Central Division" then 280000
  else if div = "D.M.R. Eastern Division" then 260000
  else if div = "D.M.R. Western Division" then 220000
  else 100000

/-- The failure cases of fetchStats past the decode step (the source builds
them with fmt.Errorf; only their identity and payload matter here). -/
inductive CrimeError where
  | schemaMismatch (regionKey yearKey : String) (available : List String)
  | noMatchDivision (division : String)
  | noMatchYear (year : String)
  | indexOutOfRange
  deriving DecidableEq

/-- Region side of the tier-1a label heuristic (crime_stats.go): the
lowercased dimension label holds garda, division, station, area or
region. -/
def regionLabelHeur (l : List Char) : Bool :=
  charsContains l "garda".toList || charsContains l "division".toList ||
  charsContains l "station".toList || charsContains l "area".toList ||
  charsContains l "region".toList

/-- Year side of the tier-1a label heuristic (crime_stats.go): the
lowercased dimension label holds year, time or period. -/
def yearLabelHeur (l : List Char) : Bool :=
  charsContains l "year".toList || charsContains l "time".toList ||
  charsContains l "period".toList

/-- Tier 1a (crime_stats.go): one pass over the dimensions; the first whose
label passes the region heuristic fills the still-empty region key, the
first passing the year heuristic the still-empty year key. -/
def resolveKeysByLabel : List (String × Dimension) → String → String → String × String
  | [], regionKey, yearKey => (regionKey, yearKey)
  | (k, v) :: rest, regionKey, yearKey =>
    let l := toLowerChars v.label.toList
    resolveKeysByLabel rest
      (if regionKey == "" && regionLabelHeur l then k else regionKey)
      (if yearKey == "" && yearLabelHeur l then k else yearKey)

/-- Tier 1b for the region key (crime_stats.go): the first dimension key
starting with "C0", "STATISTIC", "REGION" or "AREA". -/
def resolveRegionKeyByName : List (String × Dimension) → String
  | [] => ""
  | (k, _) :: rest =>
    if charsStartsWith k.toList "C0".toList || charsStartsWith k.toList "STATISTIC".toList
        || charsStartsWith k.toList "REGION".toList || charsStartsWith k.toList "AREA".toList
    then k else resolveRegionKeyByName rest

/-- Tier 1b for the year key (crime_stats.go): the first dimension key
whose uppercasing starts with "TLIST", or which starts with "TIME", "YEAR"
or "PERIOD". -/
def resolveYearKeyByName : List (String × Dimension) → String
  | [] => ""
  | (k, _) :: rest =>
    if charsStartsWith (toUpperChars k.toList) "TLIST".toList
        || charsStartsWith k.toList "TIME".toList || charsStartsWith k.toList "YEAR".toList
        || charsStartsWith k.toList "PERIOD".toList
    then k else resolveYearKeyByName rest

/-- Dimension-key resolution of fetchStats (crime_stats.go): tier 1a by
label, tier 1b by key name for whichever key is still empty, and the
tier-1c positional fallback (first key as region, second as year) when at
least two dimensions exist and a key is still empty. -/
def resolveKeys (dims : List (String × Dimension)) : String × String :=
  let p := resolveKeysByLabel dims "" ""
  let regionKey := if p.1 = "" then resolveRegionKeyByName dims else p.1
  let yearKey := if p.2 = "" then resolveYearKeyByName dims else p.2
  if regionKey = "" ∨ yearKey = "" then
    let keys := dims.map Prod.fst
    if 2 ≤ keys.length then
      (if regionKey = "" then keys.getD 0 "" else regionKey,
        if yearKey = "" then keys.getD 1 "" else yearKey)
    else (regionKey, yearKey)
  else (regionKey, yearKey)

/-- Index scan of step 2 of fetchStats (crime_stats.go), carrying the
running position: the label of each region code (empty when the code is
unmapped, as a Go map read yields) is normalized and accepted when it
equals or contains the normalized target division. -/
def findRegionIdxAux (labels : List (String × String)) (target : List Char) :
    Nat → List String → Option (Nat × String)
  | _, [] => none
  | i, code :: rest =>
    let lbl := (labels.lookup code).getD ""
    let nl := normalizeChars lbl.toList
    if nl == target || charsContains nl target then some (i, lbl)
    else findRegionIdxAux labels target (i + 1) rest

/-- Step 2 of fetchStats (crime_stats.go): first matching region category
index together with the raw label that matched. -/
def findRegionIdx (regDim : Dimension) (target : List Char) : Option (Nat × String) :=
  findRegionIdxAux regDim.category.label target 0 regDim.category.index

/-- Step 3 of fetchStats (crime_stats.go): index of the exact year code. -/
def findYearIdx (yrDim : Dimension) (year : String) : Option Nat :=
  yrDim.category.index.findIdx? (fun code => code == year)

/-- Go's int(float64) conversion: truncation toward zero. -/
def goTrunc (q : ℚ) : Int :=
  if 0 ≤ q then ⌊q⌋ else ⌈q⌉

/-- fetchStats (crime_stats.go) from the decoded dataset on: the
zero-dimension schema check with its synthetic fallback, the three-tier
key resolution, the region and year matches, the flattened-index value
extraction guarded against the value vector's length, and the per-capita
division by the matched label's population. -/
def fetchStats (px : PxDataset) (division year : String) : Except CrimeError CrimeStats :=
  if px.dimension.length = 0 then
    let estimatedTotal : Int := 500
    let population : Int := pop division
    let perCapita : ℚ := (estimatedTotal : ℚ) / (population : ℚ)
    Except.ok
      { total := estimatedTotal, perCapita := perCapita,
        breakdown := [⟨"Property Crime", 300⟩, ⟨"Violent Crime", 100⟩, ⟨"Other Crime", 100⟩] }
  else
    match px.dimension.lookup (resolveKeys px.dimension).1,
        px.dimension.lookup (resolveKeys px.dimension).2 with
    | some regDim, some yrDim =>
      (match findRegionIdx regDim (normalizeChars division.toList) with
        | none => Except.error (CrimeError.noMatchDivision division)
        | some (regIdx, regLabel) =>
          match findYearIdx yrDim year with
          | none => Except.error (CrimeError.noMatchYear year)
          | some yrIdx =>
            if px.value.length ≤ regIdx * yrDim.category.index.length + yrIdx then
              Except.error CrimeError.indexOutOfRange
            else
              let total : Int := goTrunc (px.value.getD (regIdx * yrDim.category.index.length + yrIdx) 0)
              Except.ok
                { total := total,
                  perCapita := if 0 < pop regLabel then (total : ℚ) / (pop regLabel : ℚ) else 0,
                  breakdown := [] })
    | _, _ =>
      Except.error (CrimeError.schemaMismatch (resolveKeys px.dimension).1
        (resolveKeys px.dimension).2 (px.dimension.map Prod.fst))

end DaftScraper

namespace DaftScraper

/-! ## Theorems for the POIScorer claims -/

/-- C5: the transport score is base 5, plus 3 if the first station in
insertion order has distance < 0.5 km, else plus 2 if < 1.0 km, else plus 0,
plus an additional 2 exactly when two or more stations exist, with no clamp;
and the concrete list [train at 0.3 km, bus stop at 0.8 km] scores
exactly 10. -/
theorem transportScore_formula (s : POI) (rest : List POI) :
    transportScore [] = 5
    ∧ transportScore (s :: rest)
        = 5 + (if s.distance < 1/2 then 3 else if s.distance < 1 then 2 else 0)
          + (if 1 ≤ rest.length then 2 else 0)
    ∧ transportScore
        [⟨"train station", "train_station", 3/10, 3⟩,
         ⟨"bus stop", "bus_station", 8/10, 10⟩] = 10 := by
  refine ⟨rfl, ?_, by norm_num [transportScore]⟩
  simp only [transportScore, List.length_cons]
  split_ifs <;> omega

/-- C9: whatever public-transport list the caller provides, the transport
score is one of 5, 7, 8, 9, 10, and the value 6 is never produced. -/
theorem transportScore_range (publicTransport : List POI) :
    (transportScore publicTransport = 5 ∨ transportScore publicTransport = 7
      ∨ transportScore publicTransport = 8 ∨ transportScore publicTransport = 9
      ∨ transportScore publicTransport = 10)
    ∧ transportScore publicTransport ≠ 6 := by
  cases publicTransport with
  | nil => simp [transportScore]
  | cons s rest =>
    simp only [transportScore, List.length_cons]
    split_ifs <;> omega

/-- C6: for every list of amenities and entertainment venues and every
transport score, the walk score lies in [0, 100] after clamping. -/
theorem calculateWalkScore_bounded (amenities entertainment : List POI) (tScore : Int) :
    0 ≤ calculateWalkScore amenities entertainment tScore
    ∧ calculateWalkScore amenities entertainment tScore ≤ 100 := by
  simp only [calculateWalkScore]
  split_ifs <;> omega

/-! ## Theorems for the PriceAnalyzer claims -/

/-- Helper: value of the band mapping on [20, ∞). -/
theorem ratingOfDiff_eq10 {d : ℚ} (h : 20 ≤ d) : ratingOfDiff d = 10 := by
  unfold ratingOfDiff
  rw [if_pos h]

/-- Helper: value of the band mapping on [15, 20). -/
theorem ratingOfDiff_eq9 {d : ℚ} (h1 : d < 20) (h2 : 15 ≤ d) : ratingOfDiff d = 9 := by
  unfold ratingOfDiff
  rw [if_neg (not_le.mpr h1), if_pos h2]

/-- Helper: value of the band mapping on [10, 15). -/
theorem ratingOfDiff_eq8 {d : ℚ} (h1 : d < 15) (h2 : 10 ≤ d) : ratingOfDiff d = 8 := by
  unfold ratingOfDiff
  rw [if_neg (not_le.mpr (by linarith)), if_neg (not_le.mpr h1), if_pos h2]

/-- Helper: value of the band mapping on [5, 10). -/
theorem ratingOfDiff_eq7 {d : ℚ} (h1 : d < 10) (h2 : 5 ≤ d) : ratingOfDiff d = 7 := by
  unfold ratingOfDiff
  rw [if_neg (not_le.mpr (by linarith)), if_neg (not_le.mpr (by linarith)),
    if_neg (not_le.mpr h1), if_pos h2]

/-- Helper: value of the band mapping on [0, 5). -/
theorem ratingOfDiff_eq6 {d : ℚ} (h1 : d < 5) (h2 : 0 ≤ d) : ratingOfDiff d = 6 := by
  unfold ratingOfDiff
  rw [if_neg (not_le.mpr (by linarith)), if_neg (not_le.mpr (by linarith)),
    if_neg (not_le.mpr (by linarith)), if_neg (not_le.mpr h1), if_pos h2]

/-- Helper: value of the band mapping on [-5, 0). -/
theorem ratingOfDiff_eq5 {d : ℚ} (h1 : d < 0) (h2 : -5 ≤ d) : ratingOfDiff d = 5 := by
  unfold ratingOfDiff
  rw [if_neg (not_le.mpr (by linarith)), if_neg (not_le.mpr (by linarith)),
    if_neg (not_le.mpr (by linarith)), if_neg (not_le.mpr (by linarith)),
    if_neg (not_le.mpr h1), if_pos h2]

/-- Helper: value of the band mapping on [-10, -5). -/
theorem ratingOfDiff_eq4 {d : ℚ} (h1 : d < -5) (h2 : -10 ≤ d) : ratingOfDiff d = 4 := by
  unfold ratingOfDiff
  rw [if_neg (not_le.mpr (by linarith)), if_neg (not_le.mpr (by linarith)),
    if_neg (not_le.mpr (by linarith)), if_neg (not_le.mpr (by linarith)),
    if_neg (not_le.mpr (by linarith)), if_neg (not_le.mpr h1), if_pos h2]

/-- Helper: value of the band mapping on [-15, -10). -/
theorem ratingOfDiff_eq3 {d : ℚ} (h1 : d < -10) (h2 : -15 ≤ d) : ratingOfDiff d = 3 := by
  unfold ratingOfDiff
  rw [if_neg (not_le.mpr (by linarith)), if_neg (not_le.mpr (by linarith)),
    if_neg (not_le.mpr (by linarith)), if_neg (not_le.mpr (by linarith)),
    if_neg (not_le.mpr (by linarith)), if_neg (not_le.mpr (by linarith)),
    if_neg (not_le.mpr h1), if_pos h2]

/-- Helper: value of the band mapping on [-20, -15). -/
theorem ratingOfDiff_eq2 {d : ℚ} (h1 : d < -15) (h2 : -20 ≤ d) : ratingOfDiff d = 2 := by
  unfold ratingOfDiff
  rw [if_neg (not_le.mpr (by linarith)), if_neg (not_le.mpr (by linarith)),
    if_neg (not_le.mpr (by linarith)), if_neg (not_le.mpr (by linarith)),
    if_neg (not_le.mpr (by linarith)), if_neg (not_le.mpr (by linarith)),
    if_neg (not_le.mpr (by linarith)), if_neg (not_le.mpr h1), if_pos h2]

/-- Helper: any percentage difference below -20 lands in the default band. -/
theorem ratingOfDiff_below {d : ℚ} (h : d < -20) : ratingOfDiff d = 1 := by
  unfold ratingOfDiff
  rw [if_neg (not_le.mpr (by linarith)), if_neg (not_le.mpr (by linarith)),
    if_neg (not_le.mpr (by linarith)), if_neg (not_le.mpr (by linarith)),
    if_neg (not_le.mpr (by linarith)), if_neg (not_le.mpr (by linarith)),
    if_neg (not_le.mpr (by linarith)), if_neg (not_le.mpr (by linarith)),
    if_neg (not_le.mpr h)]

/-- Helper: lower bound 9 for the band mapping from 15 up. -/
theorem ratingOfDiff_ge9 {e : ℚ} (h : 15 ≤ e) : 9 ≤ ratingOfDiff e := by
  rcases le_or_lt 20 e with h' | h'
  · rw [ratingOfDiff_eq10 h']; norm_num
  · rw [ratingOfDiff_eq9 h' h]

/-- Helper: lower bound 8 for the band mapping from 10 up. -/
theorem ratingOfDiff_ge8 {e : ℚ} (h : 10 ≤ e) : 8 ≤ ratingOfDiff e := by
  rcases le_or_lt 15 e with h' | h'
  · exact le_trans (by norm_num) (ratingOfDiff_ge9 h')
  · rw [ratingOfDiff_eq8 h' h]

/-- Helper: lower bound 7 for the band mapping from 5 up. -/
theorem ratingOfDiff_ge7 {e : ℚ} (h : 5 ≤ e) : 7 ≤ ratingOfDiff e := by
  rcases le_or_lt 10 e with h' | h'
  · exact le_trans (by norm_num) (ratingOfDiff_ge8 h')
  · rw [ratingOfDiff_eq7 h' h]

/-- Helper: lower bound 6 for the band mapping from 0 up. -/
theorem ratingOfDiff_ge6 {e : ℚ} (h : 0 ≤ e) : 6 ≤ ratingOfDiff e := by
  rcases le_or_lt 5 e with h' | h'
  · exact le_trans (by norm_num) (ratingOfDiff_ge7 h')
  · rw [ratingOfDiff_eq6 h' h]

/-- Helper: lower bound 5 for the band mapping from -5 up. -/
theorem ratingOfDiff_ge5 {e : ℚ} (h : -5 ≤ e) : 5 ≤ ratingOfDiff e := by
  rcases le_or_lt 0 e with h' | h'
  · exact le_trans (by norm_num) (ratingOfDiff_ge6 h')
  · rw [ratingOfDiff_eq5 h' h]

/-- Helper: lower bound 4 for the band mapping from -10 up. -/
theorem ratingOfDiff_ge4 {e : ℚ} (h : -10 ≤ e) : 4 ≤ ratingOfDiff e := by
  rcases le_or_lt (-5) e with h' | h'
  · exact le_trans (by norm_num) (ratingOfDiff_ge5 h')
  · rw [ratingOfDiff_eq4 h' h]

/-- Helper: lower bound 3 for the band mapping from -15 up. -/
theorem ratingOfDiff_ge3 {e : ℚ} (h : -15 ≤ e) : 3 ≤ ratingOfDiff e := by
  rcases le_or_lt (-10) e with h' | h'
  · exact le_trans (by norm_num) (ratingOfDiff_ge4 h')
  · rw [ratingOfDiff_eq3 h' h]

/-- Helper: lower bound 2 for the band mapping from -20 up. -/
theorem ratingOfDiff_ge2 {e : ℚ} (h : -20 ≤ e) : 2 ≤ ratingOfDiff e := by
  rcases le_or_lt (-15) e with h' | h'
  · exact le_trans (by norm_num) (ratingOfDiff_ge3 h')
  · rw [ratingOfDiff_eq2 h' h]

/-- Helper: the band mapping never goes below 1. -/
theorem ratingOfDiff_ge1 (e : ℚ) : 1 ≤ ratingOfDiff e := by
  rcases le_or_lt (-20) e with h' | h'
  · exact le_trans (by norm_num) (ratingOfDiff_ge2 h')
  · rw [ratingOfDiff_below h']

/-- Helper: the band mapping is monotone non-decreasing in the percentage
difference. -/
theorem ratingOfDiff_mono {d e : ℚ} (h : d ≤ e) : ratingOfDiff d ≤ ratingOfDiff e := by
  rcases le_or_lt 20 d with h1 | h1
  · rw [ratingOfDiff_eq10 h1, ratingOfDiff_eq10 (le_trans h1 h)]
  rcases le_or_lt 15 d with h2 | h2
  · rw [ratingOfDiff_eq9 h1 h2]; exact ratingOfDiff_ge9 (le_trans h2 h)
  rcases le_or_lt 10 d with h3 | h3
  · rw [ratingOfDiff_eq8 h2 h3]; exact ratingOfDiff_ge8 (le_trans h3 h)
  rcases le_or_lt 5 d with h4 | h4
  · rw [ratingOfDiff_eq7 h3 h4]; exact ratingOfDiff_ge7 (le_trans h4 h)
  rcases le_or_lt 0 d with h5 | h5
  · rw [ratingOfDiff_eq6 h4 h5]; exact ratingOfDiff_ge6 (le_trans h5 h)
  rcases le_or_lt (-5) d with h6 | h6
  · rw [ratingOfDiff_eq5 h5 h6]; exact ratingOfDiff_ge5 (le_trans h6 h)
  rcases le_or_lt (-10) d with h7 | h7
  · rw [ratingOfDiff_eq4 h6 h7]; exact ratingOfDiff_ge4 (le_trans h7 h)
  rcases le_or_lt (-15) d with h8 | h8
  · rw [ratingOfDiff_eq3 h7 h8]; exact ratingOfDiff_ge3 (le_trans h8 h)
  rcases le_or_lt (-20) d with h9 | h9
  · rw [ratingOfDiff_eq2 h8 h9]; exact ratingOfDiff_ge2 (le_trans h9 h)
  rw [ratingOfDiff_below h9]
  exact ratingOfDiff_ge1 e

/-- C3: for a fixed positive area-average price the rating is monotonically
non-increasing as the current price increases, a percentage difference of
exactly 20, 15, 10, 5, 0, -5, -10, -15, -20 yields rating 10, 9, 8, 7, 6,
5, 4, 3, 2 respectively, and any difference below -20 yields 1. -/
theorem calculatePriceRating_monotone_boundaries (avgPrice p₁ p₂ : ℚ)
    (havg : 0 < avgPrice) (h12 : p₁ ≤ p₂) :
    calculatePriceRating avgPrice p₂ ≤ calculatePriceRating avgPrice p₁
    ∧ ((avgPrice - p₁) / avgPrice * 100 = 20 → calculatePriceRating avgPrice p₁ = 10)
    ∧ ((avgPrice - p₁) / avgPrice * 100 = 15 → calculatePriceRating avgPrice p₁ = 9)
    ∧ ((avgPrice - p₁) / avgPrice * 100 = 10 → calculatePriceRating avgPrice p₁ = 8)
    ∧ ((avgPrice - p₁) / avgPrice * 100 = 5 → calculatePriceRating avgPrice p₁ = 7)
    ∧ ((avgPrice - p₁) / avgPrice * 100 = 0 → calculatePriceRating avgPrice p₁ = 6)
    ∧ ((avgPrice - p₁) / avgPrice * 100 = -5 → calculatePriceRating avgPrice p₁ = 5)
    ∧ ((avgPrice - p₁) / avgPrice * 100 = -10 → calculatePriceRating avgPrice p₁ = 4)
    ∧ ((avgPrice - p₁) / avgPrice * 100 = -15 → calculatePriceRating avgPrice p₁ = 3)
    ∧ ((avgPrice - p₁) / avgPrice * 100 = -20 → calculatePriceRating avgPrice p₁ = 2)
    ∧ ((avgPrice - p₁) / avgPrice * 100 < -20 → calculatePriceRating avgPrice p₁ = 1) := by
  have hne : avgPrice ≠ 0 := ne_of_gt havg
  simp only [calculatePriceRating, if_neg hne]
  refine ⟨?_,
    fun hd => by rw [hd]; norm_num [ratingOfDiff],
    fun hd => by rw [hd]; norm_num [ratingOfDiff],
    fun hd => by rw [hd]; norm_num [ratingOfDiff],
    fun hd => by rw [hd]; norm_num [ratingOfDiff],
    fun hd => by rw [hd]; norm_num [ratingOfDiff],
    fun hd => by rw [hd]; norm_num [ratingOfDiff],
    fun hd => by rw [hd]; norm_num [ratingOfDiff],
    fun hd => by rw [hd]; norm_num [ratingOfDiff],
    fun hd => by rw [hd]; norm_num [ratingOfDiff],
    fun hd => ratingOfDiff_below hd⟩
  apply ratingOfDiff_mono
  rw [div_eq_mul_inv, div_eq_mul_inv]
  apply mul_le_mul_of_nonneg_right _ (by norm_num : (0:ℚ) ≤ 100)
  apply mul_le_mul_of_nonneg_right _ (inv_nonneg.mpr havg.le)
  linarith

/-- C3 witness: the bands at a concrete area average of 100 and prices 80
and 90. -/
theorem calculatePriceRating_monotone_boundaries_witness :
    calculatePriceRating 100 90 ≤ calculatePriceRating 100 80
    ∧ (((100 : ℚ) - 80) / 100 * 100 = 20 → calculatePriceRating 100 80 = 10)
    ∧ (((100 : ℚ) - 80) / 100 * 100 = 15 → calculatePriceRating 100 80 = 9)
    ∧ (((100 : ℚ) - 80) / 100 * 100 = 10 → calculatePriceRating 100 80 = 8)
    ∧ (((100 : ℚ) - 80) / 100 * 100 = 5 → calculatePriceRating 100 80 = 7)
    ∧ (((100 : ℚ) - 80) / 100 * 100 = 0 → calculatePriceRating 100 80 = 6)
    ∧ (((100 : ℚ) - 80) / 100 * 100 = -5 → calculatePriceRating 100 80 = 5)
    ∧ (((100 : ℚ) - 80) / 100 * 100 = -10 → calculatePriceRating 100 80 = 4)
    ∧ (((100 : ℚ) - 80) / 100 * 100 = -15 → calculatePriceRating 100 80 = 3)
    ∧ (((100 : ℚ) - 80) / 100 * 100 = -20 → calculatePriceRating 100 80 = 2)
    ∧ (((100 : ℚ) - 80) / 100 * 100 < -20 → calculatePriceRating 100 80 = 1) :=
  calculatePriceRating_monotone_boundaries 100 80 90 (by norm_num) (by norm_num)

/-- C4: parsePrice returns 1234 for "€1,234", "1,234" and "1 234", and any
input whose cleaned text has no leading digit run parses to 0 rather than
failing. -/
theorem extractPriceValue_examples (price : String)
    (hnodigit : (cleanPrice price).takeWhile Char.isDigit = []) :
    extractPriceValue "€1,234" = 1234
    ∧ extractPriceValue "1,234" = 1234
    ∧ extractPriceValue "1 234" = 1234
    ∧ extractPriceValue price = 0 := by
  refine ⟨by decide, by decide, by decide, ?_⟩
  simp [extractPriceValue, hnodigit]

/-- C4 witness: the three test strings, and a price-free input. -/
theorem extractPriceValue_examples_witness :
    extractPriceValue "€1,234" = 1234
    ∧ extractPriceValue "1,234" = 1234
    ∧ extractPriceValue "1 234" = 1234
    ∧ extractPriceValue "no price given" = 0 :=
  extractPriceValue_examples "no price given" (by decide)

/-! ## Theorems for the AddressSlugger claim -/

/-- C7 counterexample: a county segment with the bare "co" token is not
stripped by the code — the address "X, Y, Co Dublin" slugs to
"y-co-dublin", not to the "y-dublin" the claimed prefix list would give. -/
theorem extractLocationFromAddress_bare_co_kept :
    extractLocationFromAddress "X, Y, Co Dublin" = "y-co-dublin"
    ∧ extractLocationFromAddress "X, Y, Co Dublin" ≠ "y-dublin" := by
  exact ⟨by decide, by decide⟩

/-- C7 amended: AddressSlugger maps "12 Main St, Ranelagh, Co. Dublin" to
"ranelagh-dublin" and "X, Y, Dublin 9" to "y-dublin" (second-to-last
segment as suburb; a leading "co." then a leading "county" are stripped
from the county segment — a bare "co" token is not — and a county segment
containing a digit is truncated to its first whitespace-delimited word). -/
theorem extractLocationFromAddress_slugs :
    extractLocationFromAddress "12 Main St, Ranelagh, Co. Dublin" = "ranelagh-dublin"
    ∧ extractLocationFromAddress "X, Y, Dublin 9" = "y-dublin" := by
  exact ⟨by decide, by decide⟩

/-! ## Theorems for the similar-listing claim -/

/-- C8: for every raw result sequence, the kept listings are the first 5
(at most) of the kept-in-source-order conversions, and every kept entry has
a non-empty address, a non-empty URL and a non-zero parsed price. -/
theorem findSimilarProperties_filter_cap (raws : List RawListing) (s : SimilarProperty)
    (hs : s ∈ findSimilarProperties raws) :
    (findSimilarProperties raws).length ≤ 5
    ∧ findSimilarProperties raws = (raws.filterMap listingToSimilar).take 5
    ∧ s.address ≠ "" ∧ s.url ≠ "" ∧ s.price ≠ 0 := by
  have heq : findSimilarProperties raws = (raws.filterMap listingToSimilar).take 5 := by
    simp only [findSimilarProperties]
    split_ifs with h
    · rfl
    · exact (List.take_of_length_le (by omega)).symm
  refine ⟨heq ▸ List.length_take_le 5 _, heq, ?_⟩
  rw [heq] at hs
  obtain ⟨r, hr, hconv⟩ := List.mem_filterMap.mp (List.mem_of_mem_take hs)
  simp only [listingToSimilar] at hconv
  split_ifs at hconv with h1 h2 h3
  injection hconv with hsv
  subst hsv
  refine ⟨h2, ?_, h3⟩
  intro hurl
  have hlen := congrArg String.length hurl
  have h19 : ("https://www.daft.ie" : String).length = 19 := rfl
  have h0 : ("" : String).length = 0 := rfl
  rw [String.length_append, h19, h0] at hlen
  omega

/-- C8 witness: one raw page entry that passes every check. -/
theorem findSimilarProperties_filter_cap_witness :
    (findSimilarProperties [⟨"1 North Road", "€1,234 per month", "/share/123"⟩]).length ≤ 5
    ∧ findSimilarProperties [⟨"1 North Road", "€1,234 per month", "/share/123"⟩]
        = ([⟨"1 North Road", "€1,234 per month", "/share/123"⟩].filterMap listingToSimilar).take 5
    ∧ ("1 North Road" : String) ≠ "" ∧ ("https://www.daft.ie/share/123" : String) ≠ ""
    ∧ (1234 : ℚ) ≠ 0 :=
  findSimilarProperties_filter_cap
    [⟨"1 North Road", "€1,234 per month", "/share/123"⟩]
    ⟨"1 North Road", 1234, "https://www.daft.ie/share/123"⟩ (by decide)

/-! ## Theorems for the SafetyScoreComposer claim -/

/-- C10: at most two safety factors and at most one risk factor can ever be
collected, so when the street-lighting rating is non-negative the pre-clamp
score 70 + 5·|safetyFactors| − 10·|riskFactors| + 2·rating is at least 60,
the lower clamp to 1 is unreachable (the result is exactly
min(preScore, 100)), and the safety score is at least 60. -/
theorem calculateSafetyScore_lower_bound (inp : SafetyInput)
    (hl : 0 ≤ inp.lightingRating) :
    (safetyFactorsOf inp).length ≤ 2
    ∧ (riskFactorsOf inp).length ≤ 1
    ∧ 60 ≤ 70 + ((safetyFactorsOf inp).length : Int) * 5
        - ((riskFactorsOf inp).length : Int) * 10 + inp.lightingRating * 2
    ∧ calculateSafetyScore inp
        = min (70 + ((safetyFactorsOf inp).length : Int) * 5
            - ((riskFactorsOf inp).length : Int) * 10 + inp.lightingRating * 2) 100
    ∧ 60 ≤ calculateSafetyScore inp := by
  have hsf : (safetyFactorsOf inp).length ≤ 2 := by
    simp only [safetyFactorsOf]
    split_ifs <;> simp
  have hrf : (riskFactorsOf inp).length ≤ 1 := by
    simp only [riskFactorsOf]
    split_ifs <;> simp
  refine ⟨hsf, hrf, by omega, ?_, ?_⟩ <;>
    · simp only [calculateSafetyScore]
      split_ifs <;> omega

/-- C10 witness: one Garda station at 1.2 km, lighting rating 8 and a
per-capita rate above 0.02 score min(86, 100) = 86. -/
theorem calculateSafetyScore_lower_bound_witness :
    (safetyFactorsOf ⟨[6/5], 8, 3/100⟩).length ≤ 2
    ∧ (riskFactorsOf ⟨[6/5], 8, 3/100⟩).length ≤ 1
    ∧ 60 ≤ 70 + ((safetyFactorsOf ⟨[6/5], 8, 3/100⟩).length : Int) * 5
        - ((riskFactorsOf ⟨[6/5], 8, 3/100⟩).length : Int) * 10
        + (⟨[6/5], 8, 3/100⟩ : SafetyInput).lightingRating * 2
    ∧ calculateSafetyScore ⟨[6/5], 8, 3/100⟩
        = min (70 + ((safetyFactorsOf ⟨[6/5], 8, 3/100⟩).length : Int) * 5
            - ((riskFactorsOf ⟨[6/5], 8, 3/100⟩).length : Int) * 10
            + (⟨[6/5], 8, 3/100⟩ : SafetyInput).lightingRating * 2) 100
    ∧ 60 ≤ calculateSafetyScore ⟨[6/5], 8, 3/100⟩ :=
  calculateSafetyScore_lower_bound ⟨[6/5], 8, 3/100⟩ (by norm_num)

/-! ## Theorems for the CrimeStatsResolver claims -/

/-- C2: for every cube with zero dimensions and every division name the
resolver succeeds with the synthetic fallback — total 500, per-capita
500 over the division's population, breakdown Property Crime 300,
Violent Crime 100, Other Crime 100 — and the population lookup yields
100000 for any division outside the six-entry table. -/
theorem fetchStats_zero_dimensions (division year : String) (vals : List ℚ) :
    fetchStats ⟨[], vals⟩ division year
      = Except.ok
          { total := 500, perCapita := (500 : ℚ) / (pop division : ℚ),
            breakdown :=
              [⟨"Property Crime", 300⟩, ⟨"Violent Crime", 100⟩, ⟨"Other Crime", 100⟩] }
    ∧ ((division ≠ "D.M.R. Northern Division" ∧ division ≠ "D.M.R. North Central Division"
        ∧ division ≠ "D.M.R. Southern Division" ∧ division ≠ "D.M.R. South Central Division"
        ∧ division ≠ "D.M.R. Eastern Division" ∧ division ≠ "D.M.R. Western Division")
        → pop division = 100000) := by
  constructor
  · simp only [fetchStats, List.length_nil, if_pos]
    norm_num
  · rintro ⟨h1, h2, h3, h4, h5, h6⟩
    simp only [pop, if_neg h1, if_neg h2, if_neg h3, if_neg h4, if_neg h5, if_neg h6]

/-- C1: once a region index, a year index and the year dimension's category
count are resolved, the resolver fails with the index-out-of-range error
exactly when the flattened index `regIdx * yearCount + yrIdx` falls outside
the value vector (at which point no CrimeStats value is produced), and
otherwise succeeds with total `int(values[regIdx * yearCount + yrIdx])`. -/
theorem fetchStats_value_extraction (px : PxDataset) (division year : String)
    (regDim yrDim : Dimension) (regIdx yrIdx : Nat) (regLabel : String)
    (hdims : px.dimension.length ≠ 0)
    (hreg : px.dimension.lookup (resolveKeys px.dimension).1 = some regDim)
    (hyr : px.dimension.lookup (resolveKeys px.dimension).2 = some yrDim)
    (hri : findRegionIdx regDim (normalizeChars division.toList) = some (regIdx, regLabel))
    (hyi : findYearIdx yrDim year = some yrIdx) :
    (fetchStats px division year = Except.error CrimeError.indexOutOfRange
      ↔ px.value.length ≤ regIdx * yrDim.category.index.length + yrIdx)
    ∧ (regIdx * yrDim.category.index.length + yrIdx < px.value.length →
        fetchStats px division year
          = Except.ok
              { total := goTrunc (px.value.getD (regIdx * yrDim.category.index.length + yrIdx) 0),
                perCapita :=
                  if 0 < pop regLabel then
                    (goTrunc (px.value.getD (regIdx * yrDim.category.index.length + yrIdx) 0) : ℚ)
                      / (pop regLabel : ℚ)
                  else 0,
                breakdown := [] }) := by
  have hfetch :
      fetchStats px division year
        = if px.value.length ≤ regIdx * yrDim.category.index.length + yrIdx then
            Except.error CrimeError.indexOutOfRange
          else
            Except.ok
              { total := goTrunc (px.value.getD (regIdx * yrDim.category.index.length + yrIdx) 0),
                perCapita :=
                  if 0 < pop regLabel then
                    (goTrunc (px.value.getD (regIdx * yrDim.category.index.length + yrIdx) 0) : ℚ)
                      / (pop regLabel : ℚ)
                  else 0,
                breakdown := [] } := by
    simp only [fetchStats, if_neg hdims, hreg, hyr, hri, hyi]
  rw [hfetch]
  constructor
  · constructor
    · intro herr
      by_contra hnot
      rw [if_neg hnot] at herr
      exact Except.noConfusion herr
    · intro hle
      rw [if_pos hle]
  · intro hlt
    rw [if_neg (not_le.mpr hlt)]

/-- C1 witness: a two-dimensional cube whose single region label matches
the division and whose single year code matches, with one value, 42. -/
theorem fetchStats_value_extraction_witness :
    fetchStats
        ⟨[("C01", ⟨"Garda Division", ⟨["r0"], [("r0", "Dublin Region")]⟩⟩),
          ("TLIST(A1)", ⟨"Year", ⟨["2024"], [("2024", "2024")]⟩⟩)], [42]⟩
        "Dublin Region" "2024"
      = Except.ok { total := 42, perCapita := (42 : ℚ) / 100000, breakdown := [] } := by
  have h :=
    fetchStats_value_extraction
      ⟨[("C01", ⟨"Garda Division", ⟨["r0"], [("r0", "Dublin Region")]⟩⟩),
        ("TLIST(A1)", ⟨"Year", ⟨["2024"], [("2024", "2024")]⟩⟩)], [42]⟩
      "Dublin Region" "2024"
      ⟨"Garda Division", ⟨["r0"], [("r0", "Dublin Region")]⟩⟩
      ⟨"Year", ⟨["2024"], [("2024", "2024")]⟩⟩
      0 0 "Dublin Region"
      (by decide) (by decide) (by decide) (by decide) (by decide)
  rw [h.2 (by decide)]
  have hpop : pop "Dublin Region" = 100000 := by decide
  rw [hpop]
  norm_num [goTrunc]

end DaftScraper
